import Mathlib

/-!
Verification development for the challenge-solver program (src/index.py).

The program is embedded shallowly:

* JSON payloads returned by the remote services are the inductive `JVal`;
  a call that can raise (transport error, a body that is not JSON, a key
  error, an attribute error, ...) is a value of `Except Unit _`, where
  `Except.error ()` stands for a raised Python exception.
* The remote world (SWAPI people search, URL fetch, SWAPI planet search,
  PokeAPI lookup) is a `SwapiWorld` record of response functions, so the
  theorems quantify over every possible transport failure, malformed
  payload and result set.
* Machine floats are modelled as `ℚ`; the fragment of Python `float(...)`
  string parsing exercised by the program (optional sign, digits, one
  optional decimal point, surrounding whitespace) is `pyFloatOfString?`.
  Exponents / inf / nan never occur in the data handled here.
* `functools.lru_cache` is modelled as an association-list cache that
  stores the memoized return value, including a memoized `None`
  (`lruCallChar`); capacity/eviction is irrelevant at the sizes considered.
-/

/-- JSON values as produced by `response.json()` / `json.loads`.
Object keys are assumed unique, as `json.loads` deduplicates them. -/
inductive JVal where
  | jnull
  | jbool (b : Bool)
  | jnum (q : ℚ)
  | jstr (s : String)
  | jarr (xs : List JVal)
  | jobj (fields : List (String × JVal))

/-- Python truthiness of a JSON-decoded value (`if data['results']:` etc.). -/
def JVal.truthy : JVal → Bool
  | .jnull => false
  | .jbool b => b
  | .jnum q => q != 0
  | .jstr s => s != ""
  | .jarr xs => !xs.isEmpty
  | .jobj fs => !fs.isEmpty

/-- Python subscripting `v[k]` with a string key: raises `KeyError` on a
dict missing the key and `TypeError` on any non-dict value. -/
def JVal.getItem (v : JVal) (k : String) : Except Unit JVal :=
  match v with
  | .jobj fs =>
    match fs.lookup k with
    | some x => .ok x
    | none => .error ()
  | _ => .error ()

/-- Python `v.get(k, d)` (`interpretation.get('characters', [])`): returns
the value or the default on a dict, raises `AttributeError` otherwise. -/
def JVal.dictGetD (v : JVal) (k : String) (d : JVal) : Except Unit JVal :=
  match v with
  | .jobj fs => .ok ((fs.lookup k).getD d)
  | _ => .error ()

/-- Python `v.get(k)` (`char.get('homeworld')`): `None` when the key is
absent; raises `AttributeError` on a non-dict value. -/
def JVal.dictGetOpt (v : JVal) (k : String) : Except Unit (Option JVal) :=
  match v with
  | .jobj fs => .ok (fs.lookup k)
  | _ => .error ()

/-- Python subscripting `v[0]` (`data['results'][0]`): first element of a
list, first character of a string, `TypeError`/`KeyError` otherwise. -/
def JVal.index0 (v : JVal) : Except Unit JVal :=
  match v with
  | .jarr (x :: _) => .ok x
  | .jstr s =>
    match s.toList with
    | c :: _ => .ok (.jstr c.toString)
    | [] => .error ()
  | _ => .error ()

/-- Python iteration `for x in v` (used by `enumerate`): list elements,
string characters, dict keys; raises `TypeError` on non-iterables. -/
def JVal.pyIter (v : JVal) : Except Unit (List JVal) :=
  match v with
  | .jarr xs => .ok xs
  | .jstr s => .ok (s.toList.map (fun c => .jstr c.toString))
  | .jobj fs => .ok (fs.map (fun kv => JVal.jstr kv.1))
  | _ => .error ()

/-- Decimal value of a digit string, most significant digit first. -/
def natOfDigits (cs : List Char) : ℕ :=
  cs.foldl (fun n c => n * 10 + (c.toNat - 48)) 0

/-- Whitespace stripped from both ends of a character list (the strip
Python `float` applies to its string argument). -/
def stripWs (cs : List Char) : List Char :=
  ((cs.dropWhile Char.isWhitespace).reverse.dropWhile Char.isWhitespace).reverse

/-- Fragment of Python `float(s)` on strings: optional surrounding
whitespace, optional sign, digits with at most one decimal point.
A comma (as in `"1,000"`) or the word `"unknown"` is rejected, exactly as
`float` raises `ValueError` on them. -/
def pyFloatOfString? (s : String) : Option ℚ :=
  let cs0 := stripWs s.toList
  let signed : Bool → ℚ → ℚ := fun neg q => if neg then -q else q
  let core : Bool → List Char → Option ℚ := fun neg cs =>
    match cs.splitOn '.' with
    | [ip] =>
      if ip ≠ [] ∧ ip.all Char.isDigit then
        some (signed neg (natOfDigits ip))
      else none
    | [ip, fp] =>
      if (ip ≠ [] ∨ fp ≠ []) ∧ ip.all Char.isDigit ∧ fp.all Char.isDigit then
        some (signed neg ((natOfDigits ip : ℚ) + (natOfDigits fp : ℚ) / (10 : ℚ) ^ fp.length))
      else none
    | _ => none
  match cs0 with
  | '-' :: rest => core true rest
  | '+' :: rest => core false rest
  | _ => core false cs0

/-- Python `float(v)` on a JSON-decoded value: numbers and booleans pass
through, strings are parsed, anything else raises `TypeError`. -/
def pyFloat (v : JVal) : Except Unit ℚ :=
  match v with
  | .jnum q => .ok q
  | .jbool b => .ok (if b then 1 else 0)
  | .jstr s =>
    match pyFloatOfString? s with
    | some q => .ok q
    | none => .error ()
  | _ => .error ()

/-- Python `v == 'unknown'`: true exactly for the string `"unknown"`. -/
def isUnknownStr (v : JVal) : Bool :=
  match v with
  | .jstr s => s == "unknown"
  | _ => false

/-- The source pattern `float(x) if x != 'unknown' else 0`, used for the
character height and every numeric planet field (src/index.py lines 65,
83-87). -/
def numericOrUnknownZero (v : JVal) : Except Unit ℚ :=
  if isUnknownStr v then .ok 0 else pyFloat v

/-- Python `s.replace(',', '')`. -/
def stripCommas (s : String) : String :=
  String.mk (s.toList.filter (fun c => c ≠ ','))

/-- The source pattern for the character mass (src/index.py line 66):
`float(char['mass'].replace(',', '')) if char['mass'] != 'unknown' else 0`.
Only strings have `.replace`, so a non-string mass raises. -/
def massNumeric (v : JVal) : Except Unit ℚ :=
  if isUnknownStr v then .ok 0
  else
    match v with
    | .jstr s => pyFloat (.jstr (stripCommas s))
    | _ => .error ()

/-- Record returned by `get_star_wars_character` (src/index.py 63-68):
the dict `{'name': ..., 'height': ..., 'mass': ..., 'homeworld': ...}`.
`name` keeps the raw JSON value; `homeworld` is `hw.json().get('name')`
(or Python `None`). -/
structure CharEntity where
  name : JVal
  height : ℚ
  mass : ℚ
  homeworld : Option JVal

/-- Record returned by `get_star_wars_planet` (src/index.py 81-88). -/
structure PlanetEntity where
  name : JVal
  rotation_period : ℚ
  orbital_period : ℚ
  diameter : ℚ
  surface_water : ℚ
  population : ℚ

/-- Record returned by `get_pokemon` (src/index.py 99-104). -/
structure PokemonEntity where
  name : JVal
  base_experience : ℚ
  height : ℚ
  weight : ℚ

/-- The remote services, as response functions: each field is the result
of `session.get(...).json()` for the corresponding endpoint, with
`Except.error ()` covering transport failures and non-JSON bodies.
Names reach the URLs through f-strings, so a name may be any value. -/
structure SwapiWorld where
  peopleSearch : JVal → Except Unit JVal
  fetchUrl : JVal → Except Unit JVal
  planetsSearch : JVal → Except Unit JVal
  pokemonGet : JVal → Except Unit JVal

/-- Body of `get_star_wars_character` (src/index.py 48-71) before its
`except` clause: the first people-search match, one nested homeworld
fetch, and the three normalized fields.  `Except.error ()` is any raised
exception, `.ok none` the fall-through `return None` on an empty result
set. -/
def getCharBody (w : SwapiWorld) (name : JVal) : Except Unit (Option CharEntity) :=
  match w.peopleSearch name with
  | .error e => .error e
  | .ok data =>
    match data.getItem "results" with
    | .error e => .error e
    | .ok results =>
      if results.truthy then
        match results.index0 with
        | .error e => .error e
        | .ok char =>
          match char.dictGetOpt "homeworld" with
          | .error e => .error e
          | .ok hwUrl =>
            match
              ((match hwUrl with
               | some u =>
                 if u.truthy then
                   match w.fetchUrl u with
                   | .error e => .error e
                   | .ok hwData => hwData.dictGetOpt "name"
                 else .ok none
               | none => .ok none) : Except Unit (Option JVal)) with
            | .error e => .error e
            | .ok hwName =>
              match char.getItem "name" with
              | .error e => .error e
              | .ok nameV =>
                match char.getItem "height" with
                | .error e => .error e
                | .ok heightV =>
                  match numericOrUnknownZero heightV with
                  | .error e => .error e
                  | .ok h =>
                    match char.getItem "mass" with
                    | .error e => .error e
                    | .ok massV =>
                      match massNumeric massV with
                      | .error e => .error e
                      | .ok m => .ok (some ⟨nameV, h, m, hwName⟩)
      else .ok none

/-- `get_star_wars_character`: the body wrapped in the source's
`try/except` that turns every raised exception into `None`. -/
def get_star_wars_character (w : SwapiWorld) (name : JVal) : Option CharEntity :=
  match getCharBody w name with
  | .ok r => r
  | .error _ => none

/-- Body of `get_star_wars_planet` (src/index.py 73-91) before its
`except` clause. -/
def getPlanetBody (w : SwapiWorld) (name : JVal) : Except Unit (Option PlanetEntity) :=
  match w.planetsSearch name with
  | .error e => .error e
  | .ok data =>
    match data.getItem "results" with
    | .error e => .error e
    | .ok results =>
      if results.truthy then
        match results.index0 with
        | .error e => .error e
        | .ok planet =>
          match planet.getItem "name" with
          | .error e => .error e
          | .ok nameV =>
            match planet.getItem "rotation_period" with
            | .error e => .error e
            | .ok rpV =>
              match numericOrUnknownZero rpV with
              | .error e => .error e
              | .ok rp =>
                match planet.getItem "orbital_period" with
                | .error e => .error e
                | .ok opV =>
                  match numericOrUnknownZero opV with
                  | .error e => .error e
                  | .ok op =>
                    match planet.getItem "diameter" with
                    | .error e => .error e
                    | .ok diV =>
                      match numericOrUnknownZero diV with
                      | .error e => .error e
                      | .ok di =>
                        match planet.getItem "surface_water" with
                        | .error e => .error e
                        | .ok swV =>
                          match numericOrUnknownZero swV with
                          | .error e => .error e
                          | .ok sw =>
                            match planet.getItem "population" with
                            | .error e => .error e
                            | .ok ppV =>
                              match numericOrUnknownZero ppV with
                              | .error e => .error e
                              | .ok pp => .ok (some ⟨nameV, rp, op, di, sw, pp⟩)
      else .ok none

/-- `get_star_wars_planet`: the body wrapped in the `try/except`. -/
def get_star_wars_planet (w : SwapiWorld) (name : JVal) : Option PlanetEntity :=
  match getPlanetBody w name with
  | .ok r => r
  | .error _ => none

/-- Body of `get_pokemon` (src/index.py 93-107) before its `except`
clause.  `name.lower()` raises on a non-string name; there is no
empty-result check, so the body either raises or builds the full record
(fields read in the source's dict-literal order). -/
def getPokemonBody (w : SwapiWorld) (name : JVal) : Except Unit (Option PokemonEntity) :=
  match
    ((match name with
     | .jstr s => .ok (JVal.jstr (String.mk (s.toList.map Char.toLower)))
     | _ => .error ()) : Except Unit JVal) with
  | .error e => .error e
  | .ok lowered =>
    match w.pokemonGet lowered with
    | .error e => .error e
    | .ok data =>
      match data.getItem "name" with
      | .error e => .error e
      | .ok nameV =>
        match data.getItem "base_experience" with
        | .error e => .error e
        | .ok beV =>
          match (if beV.truthy then pyFloat beV else .ok 0) with
          | .error e => .error e
          | .ok be =>
            match data.getItem "height" with
            | .error e => .error e
            | .ok hV =>
              match pyFloat hV with
              | .error e => .error e
              | .ok h =>
                match data.getItem "weight" with
                | .error e => .error e
                | .ok wtV =>
                  match pyFloat wtV with
                  | .error e => .error e
                  | .ok wt => .ok (some ⟨nameV, be, h, wt⟩)

/-- `get_pokemon`: the body wrapped in the `try/except`. -/
def get_pokemon (w : SwapiWorld) (name : JVal) : Option PokemonEntity :=
  match getPokemonBody w name with
  | .ok r => r
  | .error _ => none

/-- The `@lru_cache` wrapper on `get_star_wars_character`, one call at a
time: a cache hit returns the memoized return value (including a memoized
`None`) without touching the network; a miss calls the function against
the current state of the remote service and stores whatever it returned.
The result triple is (returned value, new cache, upstream lookup made?).
Capacity-128 eviction never triggers at the sizes considered here. -/
def lruCallChar (w : SwapiWorld) (cache : List (String × Option CharEntity))
    (name : String) : Option CharEntity × List (String × Option CharEntity) × Bool :=
  match cache.lookup name with
  | some r => (r, cache, false)
  | none =>
    let r := get_star_wars_character w (.jstr name)
    (r, (name, r) :: cache, true)

/-- Python runtime values for the fragment of CPython expression
evaluation that `eval(operation, {"__builtins__": {}}, namespace)`
performs.  `entity` is an `Entity(data)` instance (src/index.py 229-232),
whose attributes are exactly the dict's keys; `method` is a bound string
method such as `'abc'.upper`, which exists on every `str` even when
`__builtins__` is empty; `json` keeps compound JSON values opaque (no
attribute of theirs is modelled, which only under-approximates what real
CPython lets an expression reach). -/
inductive PyVal where
  | num (q : ℚ)
  | str (s : String)
  | bool (b : Bool)
  | pynone
  | json (j : JVal)
  | entity (fields : List (String × PyVal))
  | method (recv : String) (meth : String)

/-- Shallow conversion of a JSON value stored as an entity attribute into
a runtime value (`setattr` stores the decoded object unchanged). -/
def JVal.toPyShallow : JVal → PyVal
  | .jstr s => .str s
  | .jnum q => .num q
  | .jbool b => .bool b
  | .jnull => .pynone
  | v => .json v

/-- Attribute lists of the `Entity` objects built by `solve_problem`:
exactly the keys of the dict returned by each fetcher. -/
def CharEntity.pyFields (e : CharEntity) : List (String × PyVal) :=
  [("name", e.name.toPyShallow), ("height", .num e.height), ("mass", .num e.mass),
   ("homeworld", match e.homeworld with | some v => v.toPyShallow | none => .pynone)]

/-- Attribute list of a planet `Entity`. -/
def PlanetEntity.pyFields (e : PlanetEntity) : List (String × PyVal) :=
  [("name", e.name.toPyShallow), ("rotation_period", .num e.rotation_period),
   ("orbital_period", .num e.orbital_period), ("diameter", .num e.diameter),
   ("surface_water", .num e.surface_water), ("population", .num e.population)]

/-- Attribute list of a pokemon `Entity`. -/
def PokemonEntity.pyFields (e : PokemonEntity) : List (String × PyVal) :=
  [("name", e.name.toPyShallow), ("base_experience", .num e.base_experience),
   ("height", .num e.height), ("weight", .num e.weight)]

/-- Abstract syntax of the Python expressions `eval` can be given as the
`operation` string: literals, name lookups, attribute access, zero-argument
calls and the four arithmetic operators. -/
inductive PyExpr where
  | lit (q : ℚ)
  | strLit (s : String)
  | name (id : String)
  | attr (e : PyExpr) (a : String)
  | call (f : PyExpr)
  | add (a b : PyExpr)
  | sub (a b : PyExpr)
  | mul (a b : PyExpr)
  | div (a b : PyExpr)

/-- CPython `getattr`: on an `Entity` instance exactly the stored dict
keys; on a `str`, the built-in method `upper` (a representative of the
string methods that exist regardless of `__builtins__`); `AttributeError`
otherwise.  This under-approximates CPython (which exposes many more
attributes, e.g. the dunder chain), which is the safe direction for every
theorem below. -/
def pyGetAttr (v : PyVal) (a : String) : Except Unit PyVal :=
  match v with
  | .entity fs =>
    match fs.lookup a with
    | some x => .ok x
    | none => .error ()
  | .str s => if a = "upper" then .ok (.method s "upper") else .error ()
  | _ => .error ()

/-- CPython call of a value: bound string methods execute; everything
else in the fragment raises `TypeError`. -/
def pyCall (v : PyVal) : Except Unit PyVal :=
  match v with
  | .method s "upper" => .ok (.str (String.mk (s.toList.map Char.toUpper)))
  | _ => .error ()

/-- Evaluation of an expression exactly as
`eval(operation, {"__builtins__": {}}, namespace)` does: names resolve in
the local `namespace` only (empty `__builtins__`, so an unbound name is a
`NameError`), attribute access uses `pyGetAttr`, arithmetic works on
numbers, and division by zero raises. -/
def pyEval (ns : List (String × PyVal)) : PyExpr → Except Unit PyVal
  | .lit q => .ok (.num q)
  | .strLit s => .ok (.str s)
  | .name id =>
    match ns.lookup id with
    | some v => .ok v
    | none => .error ()
  | .attr e a =>
    match pyEval ns e with
    | .error u => .error u
    | .ok v => pyGetAttr v a
  | .call f =>
    match pyEval ns f with
    | .error u => .error u
    | .ok v => pyCall v
  | .add a b =>
    match pyEval ns a, pyEval ns b with
    | .ok (.num x), .ok (.num y) => .ok (.num (x + y))
    | _, _ => .error ()
  | .sub a b =>
    match pyEval ns a, pyEval ns b with
    | .ok (.num x), .ok (.num y) => .ok (.num (x - y))
    | _, _ => .error ()
  | .mul a b =>
    match pyEval ns a, pyEval ns b with
    | .ok (.num x), .ok (.num y) => .ok (.num (x * y))
    | _, _ => .error ()
  | .div a b =>
    match pyEval ns a, pyEval ns b with
    | .ok (.num x), .ok (.num y) => if y = 0 then .error () else .ok (.num (x / y))
    | _, _ => .error ()

/-- Names an expression references (the identifiers `eval` resolves
against the namespace). -/
def PyExpr.refNames : PyExpr → List String
  | .lit _ => []
  | .strLit _ => []
  | .name id => [id]
  | .attr e _ => e.refNames
  | .call f => f.refNames
  | .add a b => a.refNames ++ b.refNames
  | .sub a b => a.refNames ++ b.refNames
  | .mul a b => a.refNames ++ b.refNames
  | .div a b => a.refNames ++ b.refNames

/-- One `for i, name in enumerate(names, n)` binding loop of
`solve_problem` (src/index.py 204-225), started at index `n`: a resolved
entity is stored under `kind ++ toString i`; a failed resolution is
skipped, leaving the running index untouched for later names. -/
def bindKindFrom {α β : Type} (resolve : α → Option β) (kind : String) (n : ℕ) :
    List α → List (String × β)
  | [] => []
  | nm :: rest =>
    match resolve nm with
    | some e => (kind ++ toString n, e) :: bindKindFrom resolve kind (n + 1) rest
    | none => bindKindFrom resolve kind (n + 1) rest

/-- The source's `enumerate(..., 1)` binding loop (1-indexed aliases). -/
def bindKind {α β : Type} (resolve : α → Option β) (kind : String)
    (names : List α) : List (String × β) :=
  bindKindFrom resolve kind 1 names

/-- The source's `round(result, 10)` on a number, on exact rationals. -/
def pyRound10 (q : ℚ) : ℚ :=
  (round (q * 10 ^ 10) : ℤ) / (10 : ℚ) ^ 10

/-- The evaluation stage of `solve_problem` (src/index.py 234-246) before
its `except` clause: read `interpretation['operation']` (KeyError
possible), require a string (else `eval` raises `TypeError`), parse it
(`SyntaxError` on failure, abstracted by the `parseOp` parameter),
evaluate it in the entity namespace, and `round(result, 10)` (TypeError
on a non-numeric result). -/
def evalStage (parseOp : String → Option PyExpr) (ns : List (String × PyVal))
    (interp : JVal) : Except Unit ℚ :=
  match interp.getItem "operation" with
  | .error e => .error e
  | .ok opV =>
    match opV with
    | .jstr opStr =>
      match parseOp opStr with
      | none => .error ()
      | some expr =>
        match pyEval ns expr with
        | .error e => .error e
        | .ok (.num q) => .ok (pyRound10 q)
        | .ok _ => .error ()
    | _ => .error ()

/-- `solve_problem` (src/index.py 189-250), given the interpreter's
result (`None` on translation failure, otherwise the decoded JSON value)
and the Python expression parser `parseOp`.  The outer `Except` is a
Python exception escaping `solve_problem` itself: the binding loops at
lines 204-225 run outside any `try`, so `interpretation.get(...)` or
`enumerate(...)` on an unexpected payload raises to the caller, while the
evaluation stage's `try/except` turns its own failures into `None`.
The `@lru_cache` on the fetchers is observationally the identity within a
single call against a fixed world, so the fetchers are called directly. -/
def solve_problem (w : SwapiWorld) (parseOp : String → Option PyExpr)
    (interpretation : Option JVal) : Except Unit (Option ℚ) :=
  match interpretation with
  | none => .ok none
  | some interp =>
    if interp.truthy then
      match interp.dictGetD "characters" (.jarr []) with
      | .error e => .error e
      | .ok charsV =>
        match charsV.pyIter with
        | .error e => .error e
        | .ok charNames =>
          match interp.dictGetD "planets" (.jarr []) with
          | .error e => .error e
          | .ok planetsV =>
            match planetsV.pyIter with
            | .error e => .error e
            | .ok planetNames =>
              match interp.dictGetD "pokemon" (.jarr []) with
              | .error e => .error e
              | .ok pokeV =>
                match pokeV.pyIter with
                | .error e => .error e
                | .ok pokeNames =>
                  let entities :=
                    bindKind (fun nm => (get_star_wars_character w nm).map CharEntity.pyFields)
                      "character" charNames
                    ++ bindKind (fun nm => (get_star_wars_planet w nm).map PlanetEntity.pyFields)
                      "planet" planetNames
                    ++ bindKind (fun nm => (get_pokemon w nm).map PokemonEntity.pyFields)
                      "pokemon" pokeNames
                  let ns := entities.map (fun kv => (kv.1, PyVal.entity kv.2))
                  match evalStage parseOp ns interp with
                  | .ok q => .ok (some q)
                  | .error _ => .ok none
    else .ok none

/-- A challenge problem as consumed by the loop: its opaque id and its
text (`current_problem['id']`, `current_problem['problem']`). -/
structure Problem where
  id : String
  text : String

/-- One recorded POST to `/challenge/solution`: the submitted problem id
and answer, and whether the response contained the next problem. -/
structure Submission where
  problem_id : String
  answer : ℚ
  gotNext : Bool

/-- Outcome of the submission `try` block (src/index.py 352-374).  The
block evaluates `current_problem['id']` and serializes the body before
the POST goes out, so an exception can strike either before any request
was transmitted (`raisedBeforePost`, e.g. a `KeyError` on the problem
dict) or once the POST was already made (`raisedAfterPost`: transport
error, non-JSON response).  `noNext` is a response without a `problem`
field, `next p` a response carrying the next problem. -/
inductive SubmitOutcome where
  | raisedBeforePost
  | raisedAfterPost
  | noNext
  | next (p : Problem)

/-- The external events of one loop iteration of `run_challenge`: the
`time.time()` reading taken by the `while` condition, what the
`solve_problem` call did for the current problem (`.ok none` = returned
the `Failure` indicator `None`, `.ok (some q)` = returned a number,
`.error ()` = raised — possible, e.g., for a non-object translator
payload — in which case the exception escapes the loop to the outer
`except` of `run_challenge`), and the submission outcome. -/
structure IterOutcome where
  topTime : ℚ
  solveResult : Except Unit (Option ℚ)
  submit : SubmitOutcome

/-- Counters and records accumulated by `run_challenge`:
`attempted`/`solved` are `problems_attempted`/`problems_solved`,
`submissions` the POSTs made in order, `checks` the number of times the
`while` condition consulted the clock, and `deadlineStop` whether the
loop ended because that condition failed. -/
structure RunStats where
  attempted : ℕ
  solved : ℕ
  submissions : List Submission
  checks : ℕ
  deadlineStop : Bool

/-- The `while time.time() - start_time < 175` loop of `run_challenge`
(src/index.py 334-374), driven by the per-iteration external events:
check the deadline at the top; count the attempt (line 335, before the
solve); if `solve_problem` raised, the exception escapes the loop to the
outer `except` — the attempt is counted but nothing is submitted; if it
returned `None`, substitute the sentinel answer `0`; submit (a submission
recorded only when the POST actually went out); on a response with a
next problem count it as solved and continue with that problem;
otherwise (a response without a next problem, or a submission exception)
break.  The event list being exhausted models the world ending and stops
the recursion. -/
def run_challenge_loop (start : ℚ) (cur : Problem) : List IterOutcome → RunStats
  | [] => ⟨0, 0, [], 0, false⟩
  | o :: rest =>
    if o.topTime - start < 175 then
      match o.solveResult with
      | .error _ => ⟨1, 0, [], 1, false⟩
      | .ok sr =>
        let answer := sr.getD 0
        match o.submit with
        | .next nextP =>
          let r := run_challenge_loop start nextP rest
          ⟨r.attempted + 1, r.solved + 1, ⟨cur.id, answer, true⟩ :: r.submissions,
           r.checks + 1, r.deadlineStop⟩
        | .noNext => ⟨1, 0, [⟨cur.id, answer, false⟩], 1, false⟩
        | .raisedAfterPost => ⟨1, 0, [⟨cur.id, answer, false⟩], 1, false⟩
        | .raisedBeforePost => ⟨1, 0, [], 1, false⟩
    else ⟨0, 0, [], 1, true⟩

/-- The final `problems_solved/(elapsed/60)` report (src/index.py 381). -/
def reportSpeed (solved : ℕ) (elapsed : ℚ) : ℚ :=
  (solved : ℚ) / (elapsed / 60)

/-- A remote world in which every call fails (service unreachable or
returning garbage). -/
def wDead : SwapiWorld :=
  ⟨fun _ => .error (), fun _ => .error (), fun _ => .error (), fun _ => .error ()⟩

/-- A healthy people-search payload for the cache scenario: one match
with plain numeric strings and no homeworld reference. -/
def lukeJson : JVal :=
  .jobj [("results", .jarr [.jobj
    [("name", .jstr "Luke Skywalker"), ("height", .jstr "172"), ("mass", .jstr "77")]])]

/-- A remote world in which the people search succeeds with `lukeJson`. -/
def wAlive : SwapiWorld :=
  ⟨fun _ => .ok lukeJson, fun _ => .error (), fun _ => .error (), fun _ => .error ()⟩

/-- First resolution of `"Luke Skywalker"` while the service is down:
the failure happens and its `None` result enters the lru cache. -/
def c2firstCall : Option CharEntity × List (String × Option CharEntity) × Bool :=
  lruCallChar wDead [] "Luke Skywalker"

/-- Second resolution of the same name after the service has recovered,
against the cache left by the first call. -/
def c2secondCall : Option CharEntity × List (String × Option CharEntity) × Bool :=
  lruCallChar wAlive c2firstCall.2.1 "Luke Skywalker"

/-- A planet payload whose `rotation_period` is the comma-grouped string
`"1,000"` and whose other numeric fields are plain digits. -/
def commaPlanetJson : JVal :=
  .jobj [("results", .jarr [.jobj
    [("name", .jstr "X"), ("rotation_period", .jstr "1,000"),
     ("orbital_period", .jstr "10"), ("diameter", .jstr "1"),
     ("surface_water", .jstr "1"), ("population", .jstr "1")]])]

/-- A remote world serving `commaPlanetJson` for every planet search. -/
def wCommaPlanet : SwapiWorld :=
  ⟨fun _ => .error (), fun _ => .error (), fun _ => .ok commaPlanetJson, fun _ => .error ()⟩

/-- A character payload whose mass is the comma-grouped string `"1,358"`
(as SWAPI serves for Jabba) and whose height is `"unknown"`. -/
def commaMassJson : JVal :=
  .jobj [("results", .jarr [.jobj
    [("name", .jstr "Jabba"), ("height", .jstr "unknown"), ("mass", .jstr "1,358")]])]

/-- A remote world serving `commaMassJson` for every people search. -/
def wCommaMass : SwapiWorld :=
  ⟨fun _ => .ok commaMassJson, fun _ => .error (), fun _ => .error (), fun _ => .error ()⟩

/-- A people payload with a truthy homeworld URL and all numeric
attributes present and well-formed. -/
def hwCharJson : JVal :=
  .jobj [("results", .jarr [.jobj
    [("name", .jstr "Luke Skywalker"), ("height", .jstr "172"),
     ("mass", .jstr "77"), ("homeworld", .jstr "https://swapi.dev/api/planets/1/")]])]

/-- A world where the people search succeeds with `hwCharJson` but every
nested URL fetch fails. -/
def wHomeworldDown : SwapiWorld :=
  ⟨fun _ => .ok hwCharJson, fun _ => .error (), fun _ => .error (), fun _ => .error ()⟩

/-- A planet payload whose numeric fields are all the `"unknown"`
sentinel. -/
def unknownPlanetJson : JVal :=
  .jobj [("results", .jarr [.jobj
    [("name", .jstr "T"), ("rotation_period", .jstr "unknown"),
     ("orbital_period", .jstr "unknown"), ("diameter", .jstr "unknown"),
     ("surface_water", .jstr "unknown"), ("population", .jstr "unknown")]])]

/-- A world serving `unknownPlanetJson` for every planet search. -/
def wUnknownPlanet : SwapiWorld :=
  ⟨fun _ => .error (), fun _ => .error (), fun _ => .ok unknownPlanetJson, fun _ => .error ()⟩

/-- A parser standing in for Python's: it accepts nothing (the claims
using it never reach the parsing step). -/
def parseNone : String → Option PyExpr := fun _ => none

/-- Two loop iterations in which solving fails both times (sentinel `0`
submitted twice); the first response carries a next problem, the second
does not. -/
def c5trace : List IterOutcome :=
  [⟨0, .ok none, .next ⟨"p2", "t2"⟩⟩, ⟨1, .ok none, .noNext⟩]

/-- The loop run over `c5trace` from a session start at time 0. -/
def c5run : RunStats :=
  run_challenge_loop 0 ⟨"p1", "t1"⟩ c5trace

/-- Projection of a recorded submission's answer. -/
def Submission.answerOf (s : Submission) : ℚ := s.answer

/-- When no iteration's solve raised and no submission exception struck
before its POST, every attempted problem produced exactly one recorded
submission: within that scope the loop never skips the POST. -/
theorem run_challenge_loop_sub_len (start : ℚ) :
    ∀ (tr : List IterOutcome) (cur : Problem),
      (∀ o ∈ tr, o.solveResult ≠ Except.error () ∧
        o.submit ≠ SubmitOutcome.raisedBeforePost) →
      ((run_challenge_loop start cur tr).submissions).length =
        (run_challenge_loop start cur tr).attempted
  | [], _, _ => rfl
  | o :: rest, cur, h => by
    have ho := h o (by simp)
    unfold run_challenge_loop
    split
    · match hsr : o.solveResult with
      | .error u => cases u; exact absurd hsr ho.1
      | .ok sr =>
        match hsub : o.submit with
        | .next nextP =>
          have ih := run_challenge_loop_sub_len start rest nextP
            (fun o2 ho2 => h o2 (List.mem_cons_of_mem _ ho2))
          simp [hsr, hsub, ih]
        | .noNext => simp [hsr, hsub]
        | .raisedAfterPost => simp [hsr, hsub]
        | .raisedBeforePost => exact absurd hsub ho.2
    · rfl

/-- In every run — abort paths included — the loop records at most one
submission per attempted problem. -/
theorem run_challenge_loop_sub_le (start : ℚ) :
    ∀ (tr : List IterOutcome) (cur : Problem),
      ((run_challenge_loop start cur tr).submissions).length ≤
        (run_challenge_loop start cur tr).attempted
  | [], _ => le_refl 0
  | o :: rest, cur => by
    unfold run_challenge_loop
    split
    · match hsr : o.solveResult with
      | .error u => simp
      | .ok sr =>
        match hsub : o.submit with
        | .next nextP =>
          have ih := run_challenge_loop_sub_le start rest nextP
          simp [hsr, hsub]
          omega
        | .noNext => simp [hsr, hsub]
        | .raisedAfterPost => simp [hsr, hsub]
        | .raisedBeforePost => simp [hsr, hsub]
    · simp

/-- The `problems_solved` counter equals the number of submissions whose
response carried a next problem, in every run, abort paths included. -/
theorem run_challenge_loop_solved_eq (start : ℚ) :
    ∀ (tr : List IterOutcome) (cur : Problem),
      (run_challenge_loop start cur tr).solved =
        (((run_challenge_loop start cur tr).submissions).filter
          (fun s => s.gotNext)).length
  | [], _ => rfl
  | o :: rest, cur => by
    unfold run_challenge_loop
    split
    · match hsr : o.solveResult with
      | .error u => simp [List.filter, hsr]
      | .ok sr =>
        match hsub : o.submit with
        | .next nextP =>
          simp [List.filter, hsr, hsub, run_challenge_loop_solved_eq start rest nextP]
        | .noNext => simp [List.filter, hsr, hsub]
        | .raisedAfterPost => simp [List.filter, hsr, hsub]
        | .raisedBeforePost => simp [List.filter, hsr, hsub]
    · rfl

/-- The clock is consulted exactly once per iteration: one check per
attempted problem, plus the final failing check when the loop ends at the
deadline; this holds of every run, abort paths included. -/
theorem run_challenge_loop_checks_eq (start : ℚ) :
    ∀ (tr : List IterOutcome) (cur : Problem),
      (run_challenge_loop start cur tr).checks =
        (run_challenge_loop start cur tr).attempted +
          (if (run_challenge_loop start cur tr).deadlineStop then 1 else 0)
  | [], _ => rfl
  | o :: rest, cur => by
    unfold run_challenge_loop
    split
    · match hsr : o.solveResult with
      | .error u => simp [hsr]
      | .ok sr =>
        match hsub : o.submit with
        | .next nextP =>
          have ih := run_challenge_loop_checks_eq start rest nextP
          simp [hsr, hsub]
          omega
        | .noNext => simp [hsr, hsub]
        | .raisedAfterPost => simp [hsr, hsub]
        | .raisedBeforePost => simp [hsr, hsub]
    · rfl

/-- A name at position `i` (0-based) that resolves lands in the binding
list under the alias `kind ++ toString (n + i)`, independently of
whether earlier names resolved. -/
theorem bindKindFrom_mem_of_get {α β : Type} (resolve : α → Option β) (kind : String) :
    ∀ (names : List α) (n i : ℕ) (nm : α) (e : β),
      names.get? i = some nm → resolve nm = some e →
      (kind ++ toString (n + i), e) ∈ bindKindFrom resolve kind n names
  | [], _, i, _, _, h, _ => by simp at h
  | nm0 :: rest, n, 0, nm, e, h, hr => by
    simp at h
    subst h
    unfold bindKindFrom
    rw [hr]
    simp
  | nm0 :: rest, n, i + 1, nm, e, h, hr => by
    simp only [List.get?_cons_succ] at h
    have ih := bindKindFrom_mem_of_get resolve kind rest (n + 1) i nm e h hr
    unfold bindKindFrom
    have hn : n + (i + 1) = (n + 1) + i := by omega
    rw [hn]
    match hres : resolve nm0 with
    | some e0 => exact List.mem_cons_of_mem _ ih
    | none => exact ih

/-- Conversely, every entry of the binding list comes from a name that
resolved, stored at its positional alias: no placeholder is ever
inserted for a failed resolution. -/
theorem bindKindFrom_mem_inv {α β : Type} (resolve : α → Option β) (kind : String) :
    ∀ (names : List α) (n : ℕ) (k : String) (e : β),
      (k, e) ∈ bindKindFrom resolve kind n names →
      ∃ (i : ℕ) (nm : α), names.get? i = some nm ∧ resolve nm = some e ∧
        k = kind ++ toString (n + i)
  | [], n, k, e, h => by simp [bindKindFrom] at h
  | nm0 :: rest, n, k, e, h => by
    unfold bindKindFrom at h
    match hres : resolve nm0 with
    | some e0 =>
      rw [hres] at h
      rcases List.mem_cons.mp h with h1 | h2
      · obtain ⟨hk, he⟩ := Prod.ext_iff.mp h1
        have he2 : e = e0 := by simpa using he
        refine ⟨0, nm0, by simp, by rw [hres, he2], by simpa using hk⟩
      · rcases bindKindFrom_mem_inv resolve kind rest (n + 1) k e h2 with ⟨i, nm, hg, hr, hk⟩
        have hn : n + 1 + i = n + (i + 1) := by omega
        exact ⟨i + 1, nm, by simpa using hg, hr, by rw [hk, hn]⟩
    | none =>
      rw [hres] at h
      rcases bindKindFrom_mem_inv resolve kind rest (n + 1) k e h with ⟨i, nm, hg, hr, hk⟩
      have hn : n + 1 + i = n + (i + 1) := by omega
      exact ⟨i + 1, nm, by simpa using hg, hr, by rw [hk, hn]⟩

/-- Evaluation never consults a binding whose alias the expression does
not reference: adding such a binding changes nothing. -/
theorem pyEval_unused_binding (a : String) (v : PyVal) :
    ∀ (expr : PyExpr) (ns : List (String × PyVal)),
      a ∉ expr.refNames → pyEval ((a, v) :: ns) expr = pyEval ns expr
  | .lit _, _, _ => rfl
  | .strLit _, _, _ => rfl
  | .name id, ns, h => by
    have hne : (id == a) = false := by
      simp [PyExpr.refNames] at h
      exact beq_eq_false_iff_ne.mpr (fun he => h he.symm)
    simp [pyEval, List.lookup, hne]
  | .attr e att, ns, h => by
    simp only [pyEval]
    rw [pyEval_unused_binding a v e ns (by simpa [PyExpr.refNames] using h)]
  | .call f, ns, h => by
    simp only [pyEval]
    rw [pyEval_unused_binding a v f ns (by simpa [PyExpr.refNames] using h)]
  | .add e1 e2, ns, h => by
    simp only [pyEval]
    rw [pyEval_unused_binding a v e1 ns (by simp [PyExpr.refNames] at h; exact h.1),
        pyEval_unused_binding a v e2 ns (by simp [PyExpr.refNames] at h; exact h.2)]
  | .sub e1 e2, ns, h => by
    simp only [pyEval]
    rw [pyEval_unused_binding a v e1 ns (by simp [PyExpr.refNames] at h; exact h.1),
        pyEval_unused_binding a v e2 ns (by simp [PyExpr.refNames] at h; exact h.2)]
  | .mul e1 e2, ns, h => by
    simp only [pyEval]
    rw [pyEval_unused_binding a v e1 ns (by simp [PyExpr.refNames] at h; exact h.1),
        pyEval_unused_binding a v e2 ns (by simp [PyExpr.refNames] at h; exact h.2)]
  | .div e1 e2, ns, h => by
    simp only [pyEval]
    rw [pyEval_unused_binding a v e1 ns (by simp [PyExpr.refNames] at h; exact h.1),
        pyEval_unused_binding a v e2 ns (by simp [PyExpr.refNames] at h; exact h.2)]

/-- A successful planet resolution is fully materialized: its body went
through the whole field-by-field construction, so every schema field of
the returned record is the normalization of the corresponding field of
the first search result. -/
theorem getPlanetBody_some_inv (w : SwapiWorld) (name : JVal) (e : PlanetEntity)
    (h : getPlanetBody w name = .ok (some e)) :
    ∃ (data results planet : JVal),
      w.planetsSearch name = .ok data ∧
      data.getItem "results" = .ok results ∧
      results.truthy = true ∧
      results.index0 = .ok planet ∧
      planet.getItem "name" = .ok e.name ∧
      (∃ v, planet.getItem "rotation_period" = .ok v ∧
        numericOrUnknownZero v = .ok e.rotation_period) ∧
      (∃ v, planet.getItem "orbital_period" = .ok v ∧
        numericOrUnknownZero v = .ok e.orbital_period) ∧
      (∃ v, planet.getItem "diameter" = .ok v ∧
        numericOrUnknownZero v = .ok e.diameter) ∧
      (∃ v, planet.getItem "surface_water" = .ok v ∧
        numericOrUnknownZero v = .ok e.surface_water) ∧
      (∃ v, planet.getItem "population" = .ok v ∧
        numericOrUnknownZero v = .ok e.population) := by
  unfold getPlanetBody at h
  split at h
  · exact absurd h (by simp)
  · rename_i data hdata
    split at h
    · exact absurd h (by simp)
    · rename_i results hres
      split at h
      · rename_i htruthy
        split at h
        · exact absurd h (by simp)
        · rename_i planet hplanet
          split at h
          · exact absurd h (by simp)
          · rename_i nameV hname
            split at h
            · exact absurd h (by simp)
            · rename_i rpV hrpV
              split at h
              · exact absurd h (by simp)
              · rename_i rp hrp
                split at h
                · exact absurd h (by simp)
                · rename_i opV hopV
                  split at h
                  · exact absurd h (by simp)
                  · rename_i op hop
                    split at h
                    · exact absurd h (by simp)
                    · rename_i diV hdiV
                      split at h
                      · exact absurd h (by simp)
                      · rename_i di hdi
                        split at h
                        · exact absurd h (by simp)
                        · rename_i swV hswV
                          split at h
                          · exact absurd h (by simp)
                          · rename_i sw hsw
                            split at h
                            · exact absurd h (by simp)
                            · rename_i ppV hppV
                              split at h
                              · exact absurd h (by simp)
                              · rename_i pp hpp
                                simp only [Except.ok.injEq, Option.some.injEq] at h
                                subst h
                                exact ⟨data, results, planet, hdata, hres, htruthy, hplanet,
                                  hname, ⟨rpV, hrpV, hrp⟩, ⟨opV, hopV, hop⟩, ⟨diV, hdiV, hdi⟩,
                                  ⟨swV, hswV, hsw⟩, ⟨ppV, hppV, hpp⟩⟩
      · exact absurd h (by simp)

/-- C1: the claim fails on the code.  The `eval` context with empty
`__builtins__` still performs generic attribute access and calls: the
expression `character1.name.upper()` reaches the string method `upper` —
an attribute outside the fixed per-kind schema (last conjunct) — obtains
a callable bound method (third conjunct) and executes it, and even with
no entities bound at all `'abc'.upper()` executes (second conjunct).  So
evaluation is not limited to arithmetic over the bound entities'
attributes. -/
theorem eval_context_escape_c1 :
    pyEval [("character1", PyVal.entity [("name", PyVal.str "Luke")])]
      (.call (.attr (.attr (.name "character1") "name") "upper")) = .ok (.str "LUKE") ∧
    pyEval [] (.call (.attr (.strLit "abc") "upper")) = .ok (.str "ABC") ∧
    pyGetAttr (.str "Luke") "upper" = .ok (.method "Luke" "upper") ∧
    (CharEntity.pyFields ⟨.jnull, 0, 0, none⟩).map Prod.fst =
      ["name", "height", "mass", "homeworld"] :=
  ⟨rfl, rfl, rfl, rfl⟩

/-- C2: the claim fails on the code.  `lru_cache` memoizes the `None`
returned by a failed resolution: the first call against a dead service
returns `None` and caches it (first two conjuncts); the second call for
the same name after the service recovered returns the memoized `None`
without performing the upstream lookup (next two conjuncts), although a
direct resolution against the recovered service succeeds (last
conjunct). -/
theorem notfound_cached_c2 :
    c2firstCall.1 = none ∧ c2firstCall.2.2 = true ∧
    c2secondCall.1 = none ∧ c2secondCall.2.2 = false ∧
    get_star_wars_character wAlive (.jstr "Luke Skywalker") =
      some ⟨.jstr "Luke Skywalker", 172, 77, none⟩ :=
  ⟨rfl, rfl, rfl, rfl, rfl⟩

/-- C3, counterexample: a planet whose `rotation_period` is the
comma-grouped string `"1,000"` does not resolve to an entity with the
parsed float 1000.0 as the claim states; `float("1,000")` raises, the
exception is swallowed, and the whole resolution returns `NotFound`. -/
theorem comma_numeric_counterexample_c3 :
    get_star_wars_planet wCommaPlanet (.jstr "X") = none ∧
    numericOrUnknownZero (.jstr "1,000") = .error () :=
  ⟨rfl, rfl⟩

/-- C3, amended: the `"unknown"` sentinel normalizes to 0 for every
numeric character/planet field, but comma-grouped numeric strings are
parsed only for the character `mass` attribute (whose normalization
strips commas before parsing, e.g. Jabba's mass `"1,358"` resolves to
1358); for every other numeric attribute a comma-grouped string aborts
the resolution (see the counterexample). -/
theorem normalization_amended_c3 :
    numericOrUnknownZero (.jstr "unknown") = .ok 0 ∧
    massNumeric (.jstr "unknown") = .ok 0 ∧
    (∀ s : String, s ≠ "unknown" →
      massNumeric (.jstr s) = pyFloat (.jstr (stripCommas s))) ∧
    massNumeric (.jstr "1,000") = .ok 1000 ∧
    get_star_wars_character wCommaMass (.jstr "Jabba") =
      some ⟨.jstr "Jabba", 0, 1358, none⟩ := by
  refine ⟨rfl, rfl, ?_, rfl, rfl⟩
  intro s hs
  simp [massNumeric, isUnknownStr, hs]

/-- C3, witness: the comma-stripping mass normalization applied at the
concrete SWAPI value `"1,358"`. -/
theorem normalization_amended_c3_witness :
    massNumeric (.jstr "1,358") = pyFloat (.jstr (stripCommas "1,358")) :=
  normalization_amended_c3.2.2.1 "1,358" (by decide)

/-- C4: the claim fails on the code.  When the translator returns a
non-object JSON payload (here the array `[1]`), `solve_problem` evaluates
`interpretation.get('characters', [])` outside any `try` block, and the
resulting `AttributeError` escapes to the caller instead of an overall
`None` (first conjunct).  A translation failure proper does yield `None`
(second conjunct). -/
theorem nonobject_payload_escape_c4 :
    solve_problem wDead parseNone (some (.jarr [.jnum 1])) = .error () ∧
    solve_problem wDead parseNone none = .ok none :=
  ⟨rfl, rfl⟩

/-- C5, counterexample: a run in which solving fails on both problems, so
both submitted answers are the sentinel 0, yet `problems_solved` ends at
1 because the first submission's response carried a next problem.  Under
the claim (solved counts only non-sentinel answers) it would be 0. -/
theorem solved_counter_counterexample_c5 :
    c5run.attempted = 2 ∧ c5run.solved = 1 ∧
    c5run.submissions.map Submission.answerOf = [0, 0] := by
  refine ⟨?_, ?_, ?_⟩ <;>
    norm_num [c5run, c5trace, run_challenge_loop, Submission.answerOf]

/-- C5, amended: `solved` counts exactly the submissions whose response
contained a next problem — regardless of whether the answer was a real
computed number or the sentinel 0 — so in particular it never exceeds
`attempted` (which counts every problem the loop started, incremented at
the top of each iteration and at most one submission each); the final
report is solved per minute (`reportSpeed`).  All of this holds of every
run, the abort paths (a raising solve, a submission exception) included. -/
theorem counters_amended_c5 :
    (∀ (start : ℚ) (cur : Problem) (tr : List IterOutcome),
      (run_challenge_loop start cur tr).solved =
        (((run_challenge_loop start cur tr).submissions).filter
          (fun s => s.gotNext)).length ∧
      ((run_challenge_loop start cur tr).submissions).length ≤
        (run_challenge_loop start cur tr).attempted ∧
      (run_challenge_loop start cur tr).solved ≤
        (run_challenge_loop start cur tr).attempted) ∧
    (∀ (s : ℕ) (e : ℚ), e ≠ 0 → reportSpeed s e * e = (s : ℚ) * 60) := by
  constructor
  · intro start cur tr
    refine ⟨run_challenge_loop_solved_eq start tr cur,
      run_challenge_loop_sub_le start tr cur, ?_⟩
    calc (run_challenge_loop start cur tr).solved
        = (((run_challenge_loop start cur tr).submissions).filter
            (fun s => s.gotNext)).length := run_challenge_loop_solved_eq start tr cur
      _ ≤ ((run_challenge_loop start cur tr).submissions).length :=
          List.length_filter_le _ _
      _ ≤ (run_challenge_loop start cur tr).attempted :=
          run_challenge_loop_sub_le start tr cur
  · intro s e he
    unfold reportSpeed
    field_simp

/-- C5, witness: the amended counter law evaluated on the concrete
two-iteration trace, and the speed report at 2 solved in 60 seconds. -/
theorem counters_amended_c5_witness :
    ((run_challenge_loop 0 ⟨"p1", "t1"⟩ c5trace).solved =
      (((run_challenge_loop 0 ⟨"p1", "t1"⟩ c5trace).submissions).filter
        (fun s => s.gotNext)).length) ∧
    reportSpeed 2 60 * 60 = (2 : ℚ) * 60 :=
  ⟨(counters_amended_c5.1 0 ⟨"p1", "t1"⟩ c5trace).1,
   counters_amended_c5.2 2 60 (by norm_num)⟩

/-- C6: every planet resolution either returns `NotFound` or a fully
materialized record, with each schema field the normalization of the
corresponding field of the first upstream match (first conjunct), and
every raised exception in a fetcher body — transport failure, malformed
payload, missing key — becomes `NotFound` rather than escaping, for all
three entity kinds (remaining conjuncts). -/
theorem resolve_materialized_or_notfound_c6 :
    (∀ (w : SwapiWorld) (name : JVal) (e : PlanetEntity),
      get_star_wars_planet w name = some e →
      ∃ (data results planet : JVal),
        w.planetsSearch name = .ok data ∧
        data.getItem "results" = .ok results ∧
        results.truthy = true ∧
        results.index0 = .ok planet ∧
        planet.getItem "name" = .ok e.name ∧
        (∃ v, planet.getItem "rotation_period" = .ok v ∧
          numericOrUnknownZero v = .ok e.rotation_period) ∧
        (∃ v, planet.getItem "orbital_period" = .ok v ∧
          numericOrUnknownZero v = .ok e.orbital_period) ∧
        (∃ v, planet.getItem "diameter" = .ok v ∧
          numericOrUnknownZero v = .ok e.diameter) ∧
        (∃ v, planet.getItem "surface_water" = .ok v ∧
          numericOrUnknownZero v = .ok e.surface_water) ∧
        (∃ v, planet.getItem "population" = .ok v ∧
          numericOrUnknownZero v = .ok e.population)) ∧
    (∀ (w : SwapiWorld) (name : JVal),
      getPlanetBody w name = .error () → get_star_wars_planet w name = none) ∧
    (∀ (w : SwapiWorld) (name : JVal),
      getCharBody w name = .error () → get_star_wars_character w name = none) ∧
    (∀ (w : SwapiWorld) (name : JVal),
      getPokemonBody w name = .error () → get_pokemon w name = none) := by
  refine ⟨?_, ?_, ?_, ?_⟩
  · intro w name e h
    have hb : getPlanetBody w name = .ok (some e) := by
      unfold get_star_wars_planet at h
      split at h
      · rename_i r heq
        rw [h] at heq
        exact heq
      · exact absurd h (by simp)
    exact getPlanetBody_some_inv w name e hb
  · intro w name h
    simp [get_star_wars_planet, h]
  · intro w name h
    simp [get_star_wars_character, h]
  · intro w name h
    simp [get_pokemon, h]

/-- C6, witness: the materialization law at a concrete all-"unknown"
planet world, and the failure-to-NotFound law at the dead world. -/
theorem resolve_materialized_or_notfound_c6_witness :
    (∃ (data results planet : JVal),
      wUnknownPlanet.planetsSearch (.jstr "T") = .ok data ∧
      data.getItem "results" = .ok results ∧
      results.truthy = true ∧
      results.index0 = .ok planet ∧
      planet.getItem "name" = .ok (.jstr "T") ∧
      (∃ v, planet.getItem "rotation_period" = .ok v ∧ numericOrUnknownZero v = .ok 0) ∧
      (∃ v, planet.getItem "orbital_period" = .ok v ∧ numericOrUnknownZero v = .ok 0) ∧
      (∃ v, planet.getItem "diameter" = .ok v ∧ numericOrUnknownZero v = .ok 0) ∧
      (∃ v, planet.getItem "surface_water" = .ok v ∧ numericOrUnknownZero v = .ok 0) ∧
      (∃ v, planet.getItem "population" = .ok v ∧ numericOrUnknownZero v = .ok 0)) ∧
    get_star_wars_planet wDead (.jstr "T") = none :=
  ⟨resolve_materialized_or_notfound_c6.1 wUnknownPlanet (.jstr "T")
      ⟨.jstr "T", 0, 0, 0, 0, 0⟩ rfl,
   resolve_materialized_or_notfound_c6.2.1 wDead (.jstr "T") rfl⟩

/-- C7: whenever solving fails in the claim's sense — `solve_problem`
returns the `Failure` indicator — the loop substitutes the sentinel
answer 0, submits it for the current problem's id and, on a response
carrying the next problem, continues with that problem (second
conjunct); on a response without a next problem it submits and stops
(third conjunct); and in every run in which no solve raised and no
submission exception struck before its POST, each attempted problem is
submitted exactly once — the loop never skips a submission (first
conjunct; a raising `solve_problem` aborts the loop through the outer
`except` and is not a `Failure` return). -/
theorem sentinel_submit_continue_c7 :
    (∀ (start : ℚ) (cur : Problem) (tr : List IterOutcome),
      (∀ o ∈ tr, o.solveResult ≠ Except.error () ∧
        o.submit ≠ SubmitOutcome.raisedBeforePost) →
      ((run_challenge_loop start cur tr).submissions).length =
        (run_challenge_loop start cur tr).attempted) ∧
    (∀ (start : ℚ) (cur : Problem) (o : IterOutcome) (rest : List IterOutcome)
       (nextP : Problem),
      o.topTime - start < 175 → o.solveResult = .ok none → o.submit = .next nextP →
      run_challenge_loop start cur (o :: rest) =
        ⟨(run_challenge_loop start nextP rest).attempted + 1,
         (run_challenge_loop start nextP rest).solved + 1,
         ⟨cur.id, 0, true⟩ :: (run_challenge_loop start nextP rest).submissions,
         (run_challenge_loop start nextP rest).checks + 1,
         (run_challenge_loop start nextP rest).deadlineStop⟩) ∧
    (∀ (start : ℚ) (cur : Problem) (o : IterOutcome) (rest : List IterOutcome)
       (sr : Option ℚ),
      o.topTime - start < 175 → o.solveResult = .ok sr → o.submit = .noNext →
      run_challenge_loop start cur (o :: rest) =
        ⟨1, 0, [⟨cur.id, sr.getD 0, false⟩], 1, false⟩) := by
  refine ⟨fun start cur tr h => run_challenge_loop_sub_len start tr cur h, ?_, ?_⟩
  · intro start cur o rest nextP h1 h2 h3
    simp [run_challenge_loop, h1, h2, h3]
  · intro start cur o rest sr h1 h2 h3
    simp [run_challenge_loop, h1, h2, h3]

/-- C7, witness: a failed solve within the deadline whose response
carries the next problem: the sentinel 0 is submitted for problem "a" and
the run continues with problem "b". -/
theorem sentinel_submit_continue_c7_witness :
    run_challenge_loop 0 ⟨"a", "t"⟩ [⟨0, .ok none, .next ⟨"b", "u"⟩⟩] =
      ⟨(run_challenge_loop 0 ⟨"b", "u"⟩ []).attempted + 1,
       (run_challenge_loop 0 ⟨"b", "u"⟩ []).solved + 1,
       ⟨"a", 0, true⟩ :: (run_challenge_loop 0 ⟨"b", "u"⟩ []).submissions,
       (run_challenge_loop 0 ⟨"b", "u"⟩ []).checks + 1,
       (run_challenge_loop 0 ⟨"b", "u"⟩ []).deadlineStop⟩ :=
  sentinel_submit_continue_c7.2.1 0 ⟨"a", "t"⟩ ⟨0, .ok none, .next ⟨"b", "u"⟩⟩ []
    ⟨"b", "u"⟩ (by norm_num) rfl rfl

/-- C8: when the top-of-loop clock reading leaves no more than the 5
second safety margin before the 180 second budget (elapsed at least 175),
the loop initiates nothing further — no attempt, no solve, no submission
— regardless of the pending events (first conjunct); the clock is checked
exactly once per iteration, at the top: checks = attempted plus the one
final failing check when the loop ends at the deadline (second conjunct);
and the cutoff 175 is exactly deadline 180 minus margin 5 (third
conjunct). -/
theorem deadline_margin_c8 :
    (∀ (start : ℚ) (cur : Problem) (o : IterOutcome) (rest : List IterOutcome),
      ¬ (o.topTime - start < 175) →
      run_challenge_loop start cur (o :: rest) = ⟨0, 0, [], 1, true⟩) ∧
    (∀ (start : ℚ) (cur : Problem) (tr : List IterOutcome),
      (run_challenge_loop start cur tr).checks =
        (run_challenge_loop start cur tr).attempted +
          (if (run_challenge_loop start cur tr).deadlineStop then 1 else 0)) ∧
    ((175 : ℚ) = 180 - 5) := by
  refine ⟨?_, fun start cur tr => run_challenge_loop_checks_eq start tr cur, by norm_num⟩
  intro start cur o rest h
  simp [run_challenge_loop, h]

/-- C8, witness: at elapsed 200 of a session started at 0, the loop stops
with nothing attempted even though a solvable problem was pending. -/
theorem deadline_margin_c8_witness :
    run_challenge_loop 0 ⟨"a", "t"⟩ [⟨200, .ok (some 1), .noNext⟩] = ⟨0, 0, [], 1, true⟩ :=
  deadline_margin_c8.1 0 ⟨"a", "t"⟩ ⟨200, .ok (some 1), .noNext⟩ [] (by norm_num)

/-- C9: the name at 0-based position `i` of a kind's list, when it
resolves, is bound under the 1-indexed positional alias
`kind ++ toString (i+1)` — the index depends only on the position, so
later names keep their index when earlier ones fail (first conjunct);
every binding comes from a successfully resolved name at its positional
alias, so failed names are simply omitted and no placeholder exists
(second conjunct); an omitted alias is invisible to any expression that
does not reference it (third conjunct) and surfaces as a NameError
failure exactly when the expression looks it up (fourth conjunct). -/
theorem binding_positional_aliases_c9 :
    (∀ (resolve : JVal → Option (List (String × PyVal))) (kind : String)
       (names : List JVal) (i : ℕ) (nm : JVal) (e : List (String × PyVal)),
      names.get? i = some nm → resolve nm = some e →
      (kind ++ toString (i + 1), e) ∈ bindKind resolve kind names) ∧
    (∀ (resolve : JVal → Option (List (String × PyVal))) (kind : String)
       (names : List JVal) (k : String) (e : List (String × PyVal)),
      (k, e) ∈ bindKind resolve kind names →
      ∃ (i : ℕ) (nm : JVal), names.get? i = some nm ∧ resolve nm = some e ∧
        k = kind ++ toString (i + 1)) ∧
    (∀ (a : String) (v : PyVal) (ns : List (String × PyVal)) (expr : PyExpr),
      a ∉ expr.refNames → pyEval ((a, v) :: ns) expr = pyEval ns expr) ∧
    (∀ (ns : List (String × PyVal)) (a : String),
      ns.lookup a = none → pyEval ns (.name a) = .error ()) := by
  refine ⟨?_, ?_, ?_, ?_⟩
  · intro resolve kind names i nm e hg hr
    have hx := bindKindFrom_mem_of_get resolve kind names 1 i nm e hg hr
    rwa [Nat.add_comm 1 i] at hx
  · intro resolve kind names k e h
    rcases bindKindFrom_mem_inv resolve kind names 1 k e h with ⟨i, nm, hg, hr, hk⟩
    exact ⟨i, nm, hg, hr, by rwa [Nat.add_comm 1 i] at hk⟩
  · intro a v ns expr h
    exact pyEval_unused_binding a v expr ns h
  · intro ns a h
    simp [pyEval, h]

/-- C9, witness: the first (position 0) name of the character list, when
resolved, appears under the alias `character1`. -/
theorem binding_positional_aliases_c9_witness :
    ("character" ++ toString (0 + 1), ([] : List (String × PyVal))) ∈
      bindKind (fun _ => some ([] : List (String × PyVal))) "character" [JVal.jnull] :=
  binding_positional_aliases_c9.1 (fun _ => some []) "character" [JVal.jnull] 0
    JVal.jnull [] rfl rfl

/-- C10: whenever the base character record is found (non-empty results,
first match carrying a truthy homeworld reference) but the nested
homeworld fetch raises — transport failure or non-JSON payload — the
whole character resolution returns `NotFound`, even though the record's
other attributes were available before the nested fetch. -/
theorem homeworld_failure_aborts_character_c10 (w : SwapiWorld)
    (name data results char u : JVal)
    (h1 : w.peopleSearch name = .ok data)
    (h2 : data.getItem "results" = .ok results)
    (h3 : results.truthy = true)
    (h4 : results.index0 = .ok char)
    (h5 : char.dictGetOpt "homeworld" = .ok (some u))
    (h6 : u.truthy = true)
    (h7 : w.fetchUrl u = .error ()) :
    get_star_wars_character w name = none := by
  simp [get_star_wars_character, getCharBody, h1, h2, h3, h4, h5, h6, h7]

/-- C10, witness: a concrete world with a complete, well-formed character
record whose homeworld fetch fails: the character resolves to NotFound. -/
theorem homeworld_failure_aborts_character_c10_witness :
    get_star_wars_character wHomeworldDown (.jstr "Luke Skywalker") = none :=
  homeworld_failure_aborts_character_c10 wHomeworldDown (.jstr "Luke Skywalker")
    hwCharJson
    (.jarr [.jobj [("name", .jstr "Luke Skywalker"), ("height", .jstr "172"),
      ("mass", .jstr "77"), ("homeworld", .jstr "https://swapi.dev/api/planets/1/")]])
    (.jobj [("name", .jstr "Luke Skywalker"), ("height", .jstr "172"),
      ("mass", .jstr "77"), ("homeworld", .jstr "https://swapi.dev/api/planets/1/")])
    (.jstr "https://swapi.dev/api/planets/1/")
    rfl rfl rfl rfl rfl rfl rfl
